import Mathlib

/-!
Shallow embedding of the MediaPlayer backend
(`src/backend/app/services/media_player.py` and
`src/backend/app/services/video_service.py`).

Modelling conventions:
* Python floats that the code only compares for equality and uses in exact
  decimal arithmetic (speeds, fps, timestamps) are modelled as rationals `ℚ`;
  every concrete value appearing in the code (0.5, 1.0, 2.0, 4.0, 30.0) is
  exactly representable as a binary float, so float arithmetic on them is
  exact and agrees with `ℚ`.
* Python exceptions that the service layer can observe are modelled by
  `PyError`; `pyStr` is Python's `str(e)` on them.  For FastAPI/Starlette's
  `HTTPException`, `str(e)` is `"{status_code}: {detail}"` (Starlette
  `HTTPException.__str__`).
* The filesystem (`os.path.exists`) and the OpenCV capture
  (`cv2.VideoCapture`) are external effects; they are modelled by a
  `FileSystem` parameter: `pathExists` is `os.path.exists`, and `openVideo`
  returns `some` properties when `cap.isOpened()` would be true and `none`
  otherwise.
* Mutation is modelled by explicit state passing: each method returns the
  updated object (or, on an exception, the service keeps the object as it was
  at the point the exception was raised; in every raising path of the source
  the raise happens before any field assignment).
* The playback worker thread (`_play_video`) and window display are real-time
  concurrency and are not part of the synchronous control-state model; `play`
  starting the thread is modelled by its flag updates, and `stop` joining it
  leaves the flags exactly as `stop` sets them (the thread only ever clears
  `is_playing`, which `stop` has already cleared).
-/

/-- A Python value as it appears in the JSON-ready response dictionaries. -/
inductive PyVal where
  | str (s : String)
  | bool (b : Bool)
  | int (n : Int)
  | rat (q : ℚ)
deriving DecidableEq, Repr

/-- Response dictionaries (`dict` in Python): association lists in insertion
order with string keys. -/
abbrev PyDict := List (String × PyVal)

/-- Properties OpenCV reports for a video that `cv2.VideoCapture` can open:
`CAP_PROP_FRAME_COUNT` (as read by `int(...)`) and `CAP_PROP_FPS`. -/
structure VideoProps where
  frame_count : Int
  fps : ℚ
deriving DecidableEq, Repr

/-- The external world `load_video` consults: `os.path.exists` and
`cv2.VideoCapture` (with `none` meaning `cap.isOpened()` is false). -/
structure FileSystem where
  pathExists : String → Bool
  openVideo : String → Option VideoProps

/-- The Python exceptions observable by the service layer:
`ValueError(msg)` raised by `MediaPlayer`, and FastAPI's
`HTTPException(status_code, detail)`.  Both derive from `Exception`, so a
Python `except Exception` catches either. -/
inductive PyError where
  | valueError (msg : String)
  | httpException (status_code : Int) (detail : String)
deriving DecidableEq, Repr

/-- Python's `str(e)`.  For `ValueError` this is the message; for Starlette's
`HTTPException` the `__str__` method returns `"{status_code}: {detail}"`. -/
def pyStr : PyError → String
  | .valueError msg => msg
  | .httpException status_code detail => toString status_code ++ ": " ++ detail

/-- FastAPI's `HTTPException` as the service raises it to the HTTP layer. -/
structure HTTPException where
  status_code : Int
  detail : String
deriving DecidableEq, Repr

/-- Truncating conversion `int(q)` of Python (rounds toward zero). -/
def pyInt (q : ℚ) : Int :=
  if 0 ≤ q then ⌊q⌋ else -⌊-q⌋

/-- Python float floor division `a // b` (result still a number). -/
def pyFloorDiv (a b : ℚ) : ℚ := (⌊a / b⌋ : ℚ)

/-- Python float modulo `a % b`, which satisfies `a % b = a - b * (a // b)`. -/
def pyFloorMod (a b : ℚ) : ℚ := a - b * (⌊a / b⌋ : ℚ)

/-- Fractional decimal digits of a rational in `[0, 1)`, most significant
first, up to the given fuel; terminates early when the remainder is zero.
Used to render the exact decimal expansion Python's `repr` prints for the
dyadic floats appearing in this program. -/
def decimalDigits : Nat → ℚ → List Nat
  | 0, _ => []
  | fuel + 1, q =>
    if q = 0 then []
    else
      let d := ⌊q * 10⌋
      d.toNat :: decimalDigits fuel (q * 10 - (d : ℚ))

/-- Python's `str`/`repr` of a float with a terminating decimal expansion:
always shows at least one fractional digit (`2.0`, `0.5`). -/
def pyFloatStr (q : ℚ) : String :=
  let sign := if q < 0 then "-" else ""
  let a := |q|
  let ip := ⌊a⌋
  let ds := decimalDigits 17 (a - (ip : ℚ))
  let fracStr := if ds.isEmpty then "0" else String.join (ds.map (fun d => toString d))
  sign ++ toString ip ++ "." ++ fracStr

/-- Python's `str` of a list of floats: `[0.5, 1.0, 2.0, 4.0]`. -/
def pyListStr (l : List ℚ) : String :=
  "[" ++ String.intercalate ", " (l.map pyFloatStr) ++ "]"

/-- Zero padding of Python's `{n:02d}` / `{n:03d}` format for a nonnegative
rendered integer. -/
def padZeros (w : Nat) (s : String) : String :=
  if w ≤ s.length then s else String.mk (List.replicate (w - s.length) '0') ++ s

/-- The control state of `MediaPlayer` (media_player.py, `__init__` fields).
The `cap` handle and the worker thread are external resources; the fields
below are the ones the synchronous control operations read and write. -/
structure MediaPlayer where
  video_path : String
  is_playing : Bool
  is_paused : Bool
  current_frame : Nat
  total_frames : Int
  fps : ℚ
  speed : ℚ
deriving DecidableEq, Repr

/-- `MediaPlayer.VALID_SPEEDS = [0.5, 1.0, 2.0, 4.0]`. -/
def MediaPlayer.VALID_SPEEDS : List ℚ := [1/2, 1, 2, 4]

/-- `MediaPlayer.__init__` followed by `_load_video`: field defaults, then
open the capture (raising `ValueError` when it cannot be opened), read
`total_frames` and `fps`, and fall back to `fps = 30.0` when the reported
fps is not positive. -/
def MediaPlayer.init (fs : FileSystem) (video_path : String) :
    Except PyError MediaPlayer :=
  match fs.openVideo video_path with
  | none => Except.error (PyError.valueError ("Could not open video file: " ++ video_path))
  | some props =>
    Except.ok
      { video_path := video_path
        is_playing := false
        is_paused := false
        current_frame := 0
        total_frames := props.frame_count
        fps := if props.fps ≤ 0 then 30 else props.fps
        speed := 1 }

/-- `MediaPlayer.set_speed`: accept only members of `VALID_SPEEDS`, otherwise
raise `ValueError` without touching any field. -/
def MediaPlayer.set_speed (mp : MediaPlayer) (speed : ℚ) : Except PyError MediaPlayer :=
  if speed ∈ MediaPlayer.VALID_SPEEDS then
    Except.ok { mp with speed := speed }
  else
    Except.error (PyError.valueError
      ("Invalid speed. Must be one of: " ++ pyListStr MediaPlayer.VALID_SPEEDS))

/-- The flag updates of `MediaPlayer.play` after the optional `set_speed`:
start the worker (modelled by its flag effects) when not playing, otherwise
just resume. -/
def MediaPlayer.startOrResume (mp : MediaPlayer) : MediaPlayer :=
  if mp.is_playing = false then
    { mp with is_playing := true, is_paused := false }
  else
    { mp with is_paused := false }

/-- `MediaPlayer.play(speed)`: when a speed is given, `set_speed` runs first
and its `ValueError` propagates before any flag is modified. -/
def MediaPlayer.play (mp : MediaPlayer) (speed : Option ℚ) : Except PyError MediaPlayer :=
  match speed with
  | none => Except.ok mp.startOrResume
  | some s =>
    match mp.set_speed s with
    | Except.error e => Except.error e
    | Except.ok mp1 => Except.ok mp1.startOrResume

/-- `MediaPlayer.pause`: set `is_paused` only when currently playing. -/
def MediaPlayer.pause (mp : MediaPlayer) : MediaPlayer :=
  if mp.is_playing = true then { mp with is_paused := true } else mp

/-- `MediaPlayer.stop`: clear both flags (then join the worker and close the
windows, which have no effect on the modelled fields). -/
def MediaPlayer.stop (mp : MediaPlayer) : MediaPlayer :=
  { mp with is_playing := false, is_paused := false }

/-- `MediaPlayer.reset`: `stop`, then rewind `current_frame` (and the capture
position) to 0. -/
def MediaPlayer.reset (mp : MediaPlayer) : MediaPlayer :=
  { mp.stop with current_frame := 0 }

/-- `MediaPlayer._get_timestamp`: `MM:SS:mmm` from
`current_frame / fps`, or the zero timestamp when `fps ≤ 0`. -/
def MediaPlayer.get_timestamp (mp : MediaPlayer) : String :=
  if 0 < mp.fps then
    let current_time : ℚ := (mp.current_frame : ℚ) / mp.fps
    let minutes := pyInt (pyFloorDiv current_time 60)
    let seconds := pyInt (pyFloorMod current_time 60)
    let milliseconds := pyInt (pyFloorMod current_time 1 * 1000)
    padZeros 2 (toString minutes) ++ ":" ++ padZeros 2 (toString seconds) ++ ":"
      ++ padZeros 3 (toString milliseconds)
  else
    "00:00:000"

/-- `MediaPlayer.get_status`: the status dictionary in source insertion
order. -/
def MediaPlayer.get_status (mp : MediaPlayer) : PyDict :=
  [("is_playing", PyVal.bool mp.is_playing),
   ("is_paused", PyVal.bool mp.is_paused),
   ("current_frame", PyVal.int (mp.current_frame : Int)),
   ("total_frames", PyVal.int mp.total_frames),
   ("speed", PyVal.rat mp.speed),
   ("timestamp", PyVal.str mp.get_timestamp),
   ("video_path", PyVal.str mp.video_path),
   ("fps", PyVal.rat mp.fps)]

/-- A service operation returns the service's `media_player` field after the
call together with either the response dictionary or the raised
`HTTPException`. -/
abbrev ServiceResult := Option MediaPlayer × Except HTTPException PyDict

/-- The body of the `try` block of `VideoService.load_video`: check
`os.path.exists` (raising `HTTPException(404, "Video file not found")`),
construct the `MediaPlayer`, and produce the success dictionary.  Note the
404 `HTTPException` is raised inside the `try`, so it propagates as a
`PyError` to the surrounding `except Exception` like any other exception. -/
def VideoService.tryLoad (fs : FileSystem) (video_path : String) :
    Except PyError (MediaPlayer × PyDict) :=
  if fs.pathExists video_path = false then
    Except.error (PyError.httpException 404 "Video file not found")
  else
    match MediaPlayer.init fs video_path with
    | Except.error e => Except.error e
    | Except.ok mp =>
      Except.ok (mp, [("message", PyVal.str "Video loaded successfully"),
                      ("path", PyVal.str video_path)])

/-- The `except Exception` wrapper around `tryLoad`: any escaping exception
becomes `HTTPException(400, str(e))`, and on an exception the
`self.media_player` assignment has not happened. -/
def VideoService.load_video (fs : FileSystem) (mp0 : Option MediaPlayer)
    (video_path : String) : ServiceResult :=
  match VideoService.tryLoad fs video_path with
  | Except.ok (mp, resp) => (some mp, Except.ok resp)
  | Except.error e => (mp0, Except.error (HTTPException.mk 400 (pyStr e)))

/-- `VideoService.play_video`: 400 when nothing is loaded; otherwise
`play(speed)` with any exception re-raised as `HTTPException(400, str(e))`
(the only raising path, `set_speed`, raises before mutating the player). -/
def VideoService.play_video (mp0 : Option MediaPlayer) (speed : Option ℚ) :
    ServiceResult :=
  match mp0 with
  | none => (none, Except.error (HTTPException.mk 400 "No video loaded"))
  | some mp =>
    match mp.play speed with
    | Except.error e => (some mp, Except.error (HTTPException.mk 400 (pyStr e)))
    | Except.ok mp1 =>
      (some mp1, Except.ok [("message", PyVal.str "Video playback started"),
                            ("speed", PyVal.rat mp1.speed)])

/-- `VideoService.pause_video`: 400 when nothing is loaded, else pause. -/
def VideoService.pause_video (mp0 : Option MediaPlayer) : ServiceResult :=
  match mp0 with
  | none => (none, Except.error (HTTPException.mk 400 "No video loaded"))
  | some mp =>
    (some mp.pause, Except.ok [("message", PyVal.str "Video playback paused")])

/-- `VideoService.stop_video`: 400 when nothing is loaded, else stop. -/
def VideoService.stop_video (mp0 : Option MediaPlayer) : ServiceResult :=
  match mp0 with
  | none => (none, Except.error (HTTPException.mk 400 "No video loaded"))
  | some mp =>
    (some mp.stop, Except.ok [("message", PyVal.str "Video playback stopped")])

/-- `VideoService.reset_video`: 400 when nothing is loaded, else reset. -/
def VideoService.reset_video (mp0 : Option MediaPlayer) : ServiceResult :=
  match mp0 with
  | none => (none, Except.error (HTTPException.mk 400 "No video loaded"))
  | some mp =>
    (some mp.reset, Except.ok [("message", PyVal.str "Video reset to beginning")])

/-- `VideoService.set_speed`: 400 when nothing is loaded; otherwise
`set_speed(speed)` with its `ValueError` caught and re-raised as
`HTTPException(400, str(e))` (the `except ValueError` clause; `set_speed`
raises nothing else). -/
def VideoService.set_speed (mp0 : Option MediaPlayer) (speed : ℚ) : ServiceResult :=
  match mp0 with
  | none => (none, Except.error (HTTPException.mk 400 "No video loaded"))
  | some mp =>
    match mp.set_speed speed with
    | Except.error e => (some mp, Except.error (HTTPException.mk 400 (pyStr e)))
    | Except.ok mp1 =>
      (some mp1, Except.ok [("message", PyVal.str ("Speed set to " ++ pyFloatStr speed ++ "x")),
                            ("speed", PyVal.rat speed)])

/-- `VideoService.get_status`: `{loaded: false}` when nothing is loaded,
else the player status with `loaded: true` appended (a fresh dict key is
inserted last). -/
def VideoService.get_status (mp0 : Option MediaPlayer) : PyDict :=
  match mp0 with
  | none => [("loaded", PyVal.bool false)]
  | some mp => mp.get_status ++ [("loaded", PyVal.bool true)]

/-- The seven operations of the service surface (routes/video.py). -/
inductive Op where
  | load (path : String)
  | play (speed : Option ℚ)
  | pause
  | stop
  | reset
  | setSpeed (speed : ℚ)
  | status

/-- Dispatch an operation against the current service state (`get_status`
never raises, so it always returns `ok`). -/
def runOp (fs : FileSystem) (st : Option MediaPlayer) : Op → ServiceResult
  | .load p => VideoService.load_video fs st p
  | .play sp => VideoService.play_video st sp
  | .pause => VideoService.pause_video st
  | .stop => VideoService.stop_video st
  | .reset => VideoService.reset_video st
  | .setSpeed s => VideoService.set_speed st s
  | .status => (st, Except.ok (VideoService.get_status st))

/-- A filesystem on which no path exists. -/
def fsMissing : FileSystem :=
  { pathExists := fun _ => false, openVideo := fun _ => none }

/-- A filesystem on which every path exists and opens as a 100-frame,
25 fps video. -/
def fsGood : FileSystem :=
  { pathExists := fun _ => true
    openVideo := fun _ => some { frame_count := 100, fps := 25 } }

/-- A filesystem on which every path exists but none can be opened as
video. -/
def fsUnreadable : FileSystem :=
  { pathExists := fun _ => true, openVideo := fun _ => none }

/-- A concrete freshly loaded player used to instantiate witnesses. -/
def samplePlayer : MediaPlayer :=
  { video_path := "v.mp4", is_playing := false, is_paused := false,
    current_frame := 0, total_frames := 100, fps := 25, speed := 1 }

/-- The detail string of an invalid-speed rejection, as the service reports
it (Python renders it as
`Invalid speed. Must be one of: [0.5, 1.0, 2.0, 4.0]`). -/
def invalidSpeedDetail : String :=
  "Invalid speed. Must be one of: " ++ pyListStr MediaPlayer.VALID_SPEEDS

/-- On an invalid speed, the service rejects with the `ValueError` message as
a 400 detail and returns the player untouched. -/
theorem set_speed_not_valid_eq (mp : MediaPlayer) (s : ℚ)
    (h : s ∉ MediaPlayer.VALID_SPEEDS) :
    VideoService.set_speed (some mp) s =
      (some mp, Except.error (HTTPException.mk 400 invalidSpeedDetail)) := by
  simp [VideoService.set_speed, MediaPlayer.set_speed, h, pyStr, invalidSpeedDetail]

/-- On a valid speed, the service stores it and answers with the message and
the speed. -/
theorem set_speed_valid_eq (mp : MediaPlayer) (s : ℚ)
    (h : s ∈ MediaPlayer.VALID_SPEEDS) :
    VideoService.set_speed (some mp) s =
      (some { mp with speed := s },
       Except.ok [("message", PyVal.str ("Speed set to " ++ pyFloatStr s ++ "x")),
                  ("speed", PyVal.rat s)]) := by
  simp [VideoService.set_speed, MediaPlayer.set_speed, h]

/-- C1: the claim that `load_video` on a nonexistent path raises status 404
with detail "Video file not found" fails on the code: the 404
`HTTPException` is raised inside the `try` block, so `except Exception`
catches it and re-raises status 400 with detail `str(e) =
"404: Video file not found"`.  The `media_player` field is indeed left
unchanged. -/
theorem load_video_missing_file_returns_400 (fs : FileSystem)
    (mp0 : Option MediaPlayer) (p : String) (h : fs.pathExists p = false) :
    VideoService.load_video fs mp0 p =
      (mp0, Except.error (HTTPException.mk 400 "404: Video file not found")) := by
  unfold VideoService.load_video VideoService.tryLoad
  rw [if_pos h]
  rfl

/-- Witness for C1: a concrete service with nothing loaded and a concrete
missing path. -/
theorem load_video_missing_file_returns_400_witness :
    fsMissing.pathExists "missing.mp4" = false ∧
    VideoService.load_video fsMissing none "missing.mp4" =
      (none, Except.error (HTTPException.mk 400 "404: Video file not found")) :=
  ⟨rfl, load_video_missing_file_returns_400 fsMissing none "missing.mp4" rfl⟩

/-- C2: for a loaded player and a speed outside `VALID_SPEEDS`, `set_speed`
raises HTTP 400 and every field of the player — its stored speed
included — is exactly as before the call. -/
theorem set_speed_invalid_is_400_and_state_unchanged (mp : MediaPlayer) (s : ℚ)
    (h : s ∉ MediaPlayer.VALID_SPEEDS) :
    VideoService.set_speed (some mp) s =
      (some mp, Except.error (HTTPException.mk 400 invalidSpeedDetail)) :=
  set_speed_not_valid_eq mp s h

/-- Witness for C2 at the concrete player and the invalid speed 3. -/
theorem set_speed_invalid_is_400_and_state_unchanged_witness :
    (3 : ℚ) ∉ MediaPlayer.VALID_SPEEDS ∧
    VideoService.set_speed (some samplePlayer) 3 =
      (some samplePlayer, Except.error (HTTPException.mk 400 invalidSpeedDetail)) :=
  ⟨by norm_num [MediaPlayer.VALID_SPEEDS],
   set_speed_invalid_is_400_and_state_unchanged samplePlayer 3
     (by norm_num [MediaPlayer.VALID_SPEEDS])⟩

/-- C3: `set_speed` succeeds exactly on members of
`VALID_SPEEDS = [0.5, 1.0, 2.0, 4.0]`; on success the stored speed becomes
`s` (all other fields unchanged) and the response carries a message and the
speed `s`; on any other value it fails with status 400. -/
theorem set_speed_succeeds_iff_valid (mp : MediaPlayer) (s : ℚ) :
    MediaPlayer.VALID_SPEEDS = [1/2, 1, 2, 4] ∧
    VideoService.set_speed (some mp) s =
      (if s ∈ MediaPlayer.VALID_SPEEDS then
        (some { mp with speed := s },
         Except.ok [("message", PyVal.str ("Speed set to " ++ pyFloatStr s ++ "x")),
                    ("speed", PyVal.rat s)])
       else
        (some mp, Except.error (HTTPException.mk 400 invalidSpeedDetail))) := by
  refine ⟨rfl, ?_⟩
  by_cases h : s ∈ MediaPlayer.VALID_SPEEDS
  · rw [if_pos h]
    exact set_speed_valid_eq mp s h
  · rw [if_neg h]
    exact set_speed_not_valid_eq mp s h

/-- C4: with no video loaded (`media_player = None`), each control operation
raises HTTP 400 with detail "No video loaded" and the service state stays
`None`. -/
theorem controls_without_load_return_400 (sp : Option ℚ) (s : ℚ) :
    VideoService.play_video none sp =
      (none, Except.error (HTTPException.mk 400 "No video loaded")) ∧
    VideoService.pause_video none =
      (none, Except.error (HTTPException.mk 400 "No video loaded")) ∧
    VideoService.stop_video none =
      (none, Except.error (HTTPException.mk 400 "No video loaded")) ∧
    VideoService.reset_video none =
      (none, Except.error (HTTPException.mk 400 "No video loaded")) ∧
    VideoService.set_speed none s =
      (none, Except.error (HTTPException.mk 400 "No video loaded")) :=
  ⟨rfl, rfl, rfl, rfl, rfl⟩

/-- C5: `get_status` raises nothing; with no video loaded it returns exactly
the dictionary `{loaded: false}`, and with a loaded player its result carries
`loaded: true` together with every status field of the player. -/
theorem get_status_loaded_flag (mp : MediaPlayer) :
    VideoService.get_status none = [("loaded", PyVal.bool false)] ∧
    (VideoService.get_status (some mp)).lookup "loaded" = some (PyVal.bool true) ∧
    (VideoService.get_status (some mp)).lookup "is_playing" = some (PyVal.bool mp.is_playing) ∧
    (VideoService.get_status (some mp)).lookup "is_paused" = some (PyVal.bool mp.is_paused) ∧
    (VideoService.get_status (some mp)).lookup "current_frame"
      = some (PyVal.int (mp.current_frame : Int)) ∧
    (VideoService.get_status (some mp)).lookup "total_frames" = some (PyVal.int mp.total_frames) ∧
    (VideoService.get_status (some mp)).lookup "speed" = some (PyVal.rat mp.speed) ∧
    (VideoService.get_status (some mp)).lookup "timestamp" = some (PyVal.str mp.get_timestamp) ∧
    (VideoService.get_status (some mp)).lookup "video_path" = some (PyVal.str mp.video_path) ∧
    (VideoService.get_status (some mp)).lookup "fps" = some (PyVal.rat mp.fps) :=
  ⟨rfl, rfl, rfl, rfl, rfl, rfl, rfl, rfl, rfl, rfl⟩

/-- C6: when the file exists, `load_video` installs a freshly initialized
player (speed 1, not playing, not paused, frame 0, fps falling back to 30
when the container reports a nonpositive rate) and returns the message and
the path; when the file exists but cannot be opened as video, it fails with
status 400 and leaves `media_player` unchanged. -/
theorem load_video_existing_file (fs : FileSystem) (mp0 : Option MediaPlayer)
    (p : String) (hex : fs.pathExists p = true) :
    VideoService.load_video fs mp0 p =
      (match fs.openVideo p with
       | some props =>
         (some { video_path := p, is_playing := false, is_paused := false,
                 current_frame := 0, total_frames := props.frame_count,
                 fps := if props.fps ≤ 0 then 30 else props.fps, speed := 1 },
          Except.ok [("message", PyVal.str "Video loaded successfully"),
                     ("path", PyVal.str p)])
       | none =>
         (mp0, Except.error (HTTPException.mk 400
           ("Could not open video file: " ++ p)))) := by
  unfold VideoService.load_video VideoService.tryLoad MediaPlayer.init
  rw [hex]
  cases fs.openVideo p <;> rfl

/-- Witness for C6: loading a concrete openable file yields the sample
player, and a concrete existing-but-unreadable file yields 400. -/
theorem load_video_existing_file_witness :
    (VideoService.load_video fsGood none "v.mp4" =
      (some samplePlayer,
       Except.ok [("message", PyVal.str "Video loaded successfully"),
                  ("path", PyVal.str "v.mp4")])) ∧
    (VideoService.load_video fsUnreadable none "bad.mp4" =
      (none, Except.error (HTTPException.mk 400
        "Could not open video file: bad.mp4"))) :=
  ⟨load_video_existing_file fsGood none "v.mp4" rfl,
   load_video_existing_file fsUnreadable none "bad.mp4" rfl⟩

/-- C9: `play_video` with an invalid speed fails with status 400 and leaves
the whole player — `is_playing`, `is_paused` and `speed` included —
unchanged, because `set_speed` raises before any flag is touched. -/
theorem play_invalid_speed_rejected_unchanged (mp : MediaPlayer) (s : ℚ)
    (h : s ∉ MediaPlayer.VALID_SPEEDS) :
    VideoService.play_video (some mp) (some s) =
      (some mp, Except.error (HTTPException.mk 400 invalidSpeedDetail)) := by
  simp [VideoService.play_video, MediaPlayer.play, MediaPlayer.set_speed, h,
    pyStr, invalidSpeedDetail]

/-- Witness for C9 at the concrete player and the invalid speed 3. -/
theorem play_invalid_speed_rejected_unchanged_witness :
    (3 : ℚ) ∉ MediaPlayer.VALID_SPEEDS ∧
    VideoService.play_video (some samplePlayer) (some 3) =
      (some samplePlayer, Except.error (HTTPException.mk 400 invalidSpeedDetail)) :=
  ⟨by norm_num [MediaPlayer.VALID_SPEEDS],
   play_invalid_speed_rejected_unchanged samplePlayer 3
     (by norm_num [MediaPlayer.VALID_SPEEDS])⟩

/-- At frame 0 the rendered timestamp is the zero timestamp, whatever the
frame rate. -/
theorem get_timestamp_frame_zero (mp : MediaPlayer) (h : mp.current_frame = 0) :
    mp.get_timestamp = "00:00:000" := by
  unfold MediaPlayer.get_timestamp
  rw [h]
  split
  · norm_num [pyFloorDiv, pyFloorMod, pyInt]
    rfl
  · rfl

/-- C10: a successful `reset_video` stops playback and clears the pause
flag, rewinds `current_frame` to 0, and leaves `video_path`, `total_frames`,
`fps` and `speed` untouched; a subsequent `get_status` reports frame 0 with
timestamp "00:00:000". -/
theorem reset_video_rewinds_to_start (mp : MediaPlayer) :
    VideoService.reset_video (some mp) =
      (some mp.reset, Except.ok [("message", PyVal.str "Video reset to beginning")]) ∧
    mp.reset.current_frame = 0 ∧
    mp.reset.is_playing = false ∧
    mp.reset.is_paused = false ∧
    mp.reset.video_path = mp.video_path ∧
    mp.reset.total_frames = mp.total_frames ∧
    mp.reset.fps = mp.fps ∧
    mp.reset.speed = mp.speed ∧
    (VideoService.get_status (some mp.reset)).lookup "current_frame"
      = some (PyVal.int 0) ∧
    (VideoService.get_status (some mp.reset)).lookup "timestamp"
      = some (PyVal.str "00:00:000") := by
  refine ⟨rfl, rfl, rfl, rfl, rfl, rfl, rfl, rfl, rfl, ?_⟩
  have ht := get_timestamp_frame_zero mp.reset rfl
  rw [← ht]
  rfl

/-- The control-state invariant of the player: a paused player is playing. -/
def MediaPlayer.ctrlInv (mp : MediaPlayer) : Prop :=
  mp.is_paused = true → mp.is_playing = true

/-- A player whose pause flag is down satisfies the invariant vacuously. -/
theorem ctrlInv_of_not_paused (mp : MediaPlayer) (h : mp.is_paused = false) :
    mp.ctrlInv := by
  intro hp
  rw [h] at hp
  cases hp

/-- Both branches of `play` clear the pause flag. -/
theorem startOrResume_not_paused (mp : MediaPlayer) :
    mp.startOrResume.is_paused = false := by
  unfold MediaPlayer.startOrResume
  split <;> rfl

/-- C8: `is_paused → is_playing` holds for a freshly initialized player and
is preserved by every control operation: a successful `play`, `pause`
(which raises the flag only when playing), `stop` and `reset`. -/
theorem paused_implies_playing_invariant (fs : FileSystem) (p : String)
    (m0 mp mp1 : MediaPlayer) (sp : Option ℚ)
    (hinit : MediaPlayer.init fs p = Except.ok m0)
    (hinv : mp.ctrlInv)
    (hplay : mp.play sp = Except.ok mp1) :
    m0.ctrlInv ∧ mp1.ctrlInv ∧ mp.pause.ctrlInv ∧ mp.stop.ctrlInv ∧
      mp.reset.ctrlInv := by
  refine ⟨?_, ?_, ?_, ?_, ?_⟩
  · unfold MediaPlayer.init at hinit
    cases hov : fs.openVideo p
    · rw [hov] at hinit
      exact Except.noConfusion hinit
    · rw [hov] at hinit
      injection hinit with h1
      rw [← h1]
      exact ctrlInv_of_not_paused _ rfl
  · cases sp with
    | none =>
      simp only [MediaPlayer.play] at hplay
      injection hplay with h1
      rw [← h1]
      exact ctrlInv_of_not_paused _ (startOrResume_not_paused mp)
    | some s =>
      simp only [MediaPlayer.play] at hplay
      cases hss : mp.set_speed s with
      | error e =>
        rw [hss] at hplay
        exact Except.noConfusion hplay
      | ok mp2 =>
        rw [hss] at hplay
        injection hplay with h1
        rw [← h1]
        exact ctrlInv_of_not_paused _ (startOrResume_not_paused mp2)
  · unfold MediaPlayer.pause
    split
    · rename_i hcond
      intro _
      exact hcond
    · exact hinv
  · exact ctrlInv_of_not_paused _ rfl
  · exact ctrlInv_of_not_paused _ rfl

/-- Witness for C8 at the sample player: a fresh load produces it, its
`play` succeeds, and it satisfies the invariant. -/
theorem paused_implies_playing_invariant_witness :
    samplePlayer.ctrlInv ∧ samplePlayer.startOrResume.ctrlInv ∧
    samplePlayer.pause.ctrlInv ∧ samplePlayer.stop.ctrlInv ∧
    samplePlayer.reset.ctrlInv :=
  paused_implies_playing_invariant fsGood "v.mp4" samplePlayer samplePlayer
    samplePlayer.startOrResume none rfl (fun hp => Bool.noConfusion hp) rfl

/-- C7: any failing service operation fails as an `HTTPException` carrying a
string detail and a status code equal to 400 or 404 (on this code path it is
in fact always 400, the 404 raised inside `load_video` being re-wrapped);
the embedding's result type `Except HTTPException PyDict` admits no other
failure mode. -/
theorem service_failures_are_400_or_404 (fs : FileSystem)
    (st : Option MediaPlayer) (op : Op) (e : HTTPException)
    (h : (runOp fs st op).2 = Except.error e) :
    e.status_code = 400 ∨ e.status_code = 404 := by
  left
  cases op with
  | load p =>
    simp only [runOp] at h
    unfold VideoService.load_video at h
    split at h
    · exact Except.noConfusion h
    · injection h with h1
      rw [← h1]
  | play sp =>
    cases st with
    | none =>
      simp only [runOp, VideoService.play_video] at h
      injection h with h1
      rw [← h1]
    | some mp =>
      simp only [runOp, VideoService.play_video] at h
      split at h
      · injection h with h1
        rw [← h1]
      · exact Except.noConfusion h
  | pause =>
    cases st with
    | none =>
      simp only [runOp, VideoService.pause_video] at h
      injection h with h1
      rw [← h1]
    | some mp =>
      simp only [runOp, VideoService.pause_video] at h
      exact Except.noConfusion h
  | stop =>
    cases st with
    | none =>
      simp only [runOp, VideoService.stop_video] at h
      injection h with h1
      rw [← h1]
    | some mp =>
      simp only [runOp, VideoService.stop_video] at h
      exact Except.noConfusion h
  | reset =>
    cases st with
    | none =>
      simp only [runOp, VideoService.reset_video] at h
      injection h with h1
      rw [← h1]
    | some mp =>
      simp only [runOp, VideoService.reset_video] at h
      exact Except.noConfusion h
  | setSpeed s =>
    cases st with
    | none =>
      simp only [runOp, VideoService.set_speed] at h
      injection h with h1
      rw [← h1]
    | some mp =>
      simp only [runOp, VideoService.set_speed] at h
      split at h
      · injection h with h1
        rw [← h1]
      · exact Except.noConfusion h
  | status =>
    simp only [runOp] at h
    exact Except.noConfusion h

/-- Witness for C7: the concrete failure of `pause` before any load. -/
theorem service_failures_are_400_or_404_witness :
    (HTTPException.mk 400 "No video loaded").status_code = 400 ∨
    (HTTPException.mk 400 "No video loaded").status_code = 404 :=
  service_failures_are_400_or_404 fsMissing none Op.pause
    (HTTPException.mk 400 "No video loaded") rfl
